import Mathlib

/-!
Verification of the coordination core of the Speech-Assessment-POC repository.

Embedded components:
* the WebSocket connection manager `useWebSocket` (src/unnamed/part_010):
  backoff/reconnect lifecycle, message routing, teardown;
* the teacher dashboard status rendering (src/unnamed/part_000, line 234);
* the outbound `sendStatusUpdate` body shared by PronunciationPractice.jsx,
  ChunkedImpromptuPractice.jsx and HybridGroqPractice.jsx;
* the batch job poller of BatchPractice.jsx (startAnalysis / pollStatus /
  fetchResults / useEffect cleanup).

Machine integers do not occur: all arithmetic is on the attempt counter and
the millisecond delay, which JavaScript holds as exact doubles in the range
used here (the cap of 30000 dominates long before 2^attempt leaves the
exactly representable range), so `Nat` is a faithful model.
-/

/- ================================================================
   Part 1: useWebSocket connection lifecycle (src/unnamed/part_010)
   ================================================================ -/

/-- Backoff delay in ms computed in `ws.onclose` (part_010 line 65):
`Math.min(1000 * Math.pow(2, reconnectAttempts), 30000)`. -/
def backoffDelay (reconnectAttempts : Nat) : Nat :=
  min (1000 * 2 ^ reconnectAttempts) 30000

/-- Events observed by one `useWebSocket` hook instance: the transport's
open signal, a close with a numeric close code, and the React effect
cleanup (manual teardown on logout/unmount, part_010 lines 79-85). -/
inductive WsEvent : Type
  | onopen : WsEvent
  | onclose (code : Nat) : WsEvent
  | teardown : WsEvent
deriving DecidableEq, Repr

/-- Connection-manager state: the `reconnectAttempts` React state (part_010
line 5) and whether the real `onclose` handler is still attached (the
cleanup replaces it with a no-op before closing, part_010 line 82). -/
structure ConnState : Type where
  reconnectAttempts : Nat
  closeHandlerAttached : Bool
deriving DecidableEq, Repr

/-- Fresh hook state: counter 0, close handler attached. -/
def initConn : ConnState :=
  { reconnectAttempts := 0, closeHandlerAttached := true }

/-- One lifecycle event. Returns the successor state together with the
reconnect delay scheduled by this event, if any.

* `onopen` (part_010 lines 35-39): `setReconnectAttempts(0)`.
* `onclose code` (part_010 lines 60-68): if the handler is still attached
  and `code !== 1000`, schedule `setTimeout(... attempts+1, delay)` with
  `delay = min(1000 * 2^attempts, 30000)`; the counter bump re-runs the
  effect and reconnects, so one failed cycle increments the counter once.
  A clean close (code 1000) or a detached handler schedules nothing.
* `teardown` (part_010 lines 79-85): `ws.onclose = () => {}` then
  `ws.close()` — the handler is detached, nothing is scheduled. -/
def stepConn (s : ConnState) : WsEvent → ConnState × Option Nat
  | .onopen => ({ s with reconnectAttempts := 0 }, none)
  | .onclose code =>
      if s.closeHandlerAttached && (code != 1000) then
        ({ s with reconnectAttempts := s.reconnectAttempts + 1 },
          some (backoffDelay s.reconnectAttempts))
      else
        (s, none)
  | .teardown => ({ s with closeHandlerAttached := false }, none)

/-- Final state after a sequence of lifecycle events. -/
def runConnState (s : ConnState) : List WsEvent → ConnState
  | [] => s
  | e :: es => runConnState (stepConn s e).1 es

/-- The per-event reconnect delays scheduled along a sequence of lifecycle
events (`none` = the event scheduled no reconnect). -/
def connDelays (s : ConnState) : List WsEvent → List (Option Nat)
  | [] => []
  | e :: es => (stepConn s e).2 :: connDelays (stepConn s e).1 es

/- ================================================================
   Part 2: message routing (ws.onmessage, part_010 lines 41-58)
   ================================================================ -/

/-- The `new_topic` payload the teacher broadcasts; the client stores it
opaquely (`setAssignedTask(message.payload)`), its wire shape is
`{mode, text}`. -/
structure TaskPayload : Type where
  mode : String
  text : String
deriving DecidableEq, Repr

/-- A successfully parsed inbound message, classified on `message.type` as
in part_010 lines 43-57; `other` covers every unrecognized type string
(the final `else` branch, which only logs). -/
inductive WsMsg : Type
  | newTopic (payload : TaskPayload) : WsMsg
  | studentStatusUpdate (student_id : String) (status : String) : WsMsg
  | ping : WsMsg
  | other (typeName : String) : WsMsg
deriving DecidableEq, Repr

/-- Outbound messages the handler itself emits (`pong`, part_010 line 54). -/
inductive OutMsg : Type
  | pong : OutMsg
deriving DecidableEq, Repr

/-- Client coordination state touched by the router: the held assignment
(`assignedTask`) and the teacher-side per-student status map
(`studentStatuses`), part_010 lines 6-7. An absent key is `none`. -/
structure ClientState : Type where
  assignedTask : Option TaskPayload
  studentStatuses : String → Option String

/-- The functional update of part_010 lines 49-52:
`setStudentStatuses(prev => ({...prev, [student_id]: status}))` —
object spread plus one overwritten key. -/
def updateStatus (m : String → Option String) (student_id status : String) :
    String → Option String :=
  fun x => if x = student_id then some status else m x

/-- Dispatch of one parsed message (part_010 lines 43-57): `new_topic`
replaces the assignment; `student_status_update` overwrites that student's
entry; `ping` answers `pong` and touches no state; anything else only
logs. -/
def handleParsed (s : ClientState) : WsMsg → ClientState × List OutMsg
  | .newTopic p => ({ s with assignedTask := some p }, [])
  | .studentStatusUpdate sid st =>
      ({ s with studentStatuses := updateStatus s.studentStatuses sid st }, [])
  | .ping => (s, [.pong])
  | .other _ => (s, [])

/-- Errors that can escape `ws.onmessage`. -/
inductive HandlerError : Type
  | parseError : HandlerError
deriving DecidableEq, Repr

/-- The whole `ws.onmessage` handler (part_010 lines 41-58). The raw frame
is modelled as `Option WsMsg`: `some m` when `JSON.parse(event.data)`
yields a message, `none` when the data is malformed. Line 42 runs
`JSON.parse` with no try/catch, so a malformed frame throws an uncaught
`SyntaxError` — modelled as `.error .parseError`. -/
def onmessageRaw (s : ClientState) (raw : Option WsMsg) :
    Except HandlerError (ClientState × List OutMsg) :=
  match raw with
  | none => .error .parseError
  | some m => .ok (handleParsed s m)

/-- JavaScript `a || b` for an optionally-present string property:
`undefined` and the empty string are falsy. -/
def jsOrDefault (v : Option String) (dflt : String) : String :=
  match v with
  | none => dflt
  | some s => if s = "" then dflt else s

/-- Status shown on the teacher dashboard grid (part_000 line 234):
`const status = studentStatuses[student.id] || 'waiting';`. -/
def renderedStatus (m : String → Option String) (student_id : String) : String :=
  jsOrDefault (m student_id) "waiting"

/- ================================================================
   Part 3: outbound status_update wire shape
   ================================================================ -/

/-- The nested `{status}` object the spec places under `payload`. -/
structure StatusPayload : Type where
  status : String
deriving DecidableEq, Repr

/-- A `status_update` wire record, with both candidate carriers of the
status value present as optional fields so the two shapes can be
compared: a top-level `status` property and a nested `payload.status`. -/
structure StatusWireMsg : Type where
  typeName : String
  status : Option String
  payload : Option StatusPayload
deriving DecidableEq, Repr

/-- The `sendStatusUpdate` body, identical in PronunciationPractice.jsx
lines 109-113, ChunkedImpromptuPractice.jsx lines 22-26 and
HybridGroqPractice.jsx lines 22-26:
`sendMessage({ type: 'status_update', status: status })` — the status
value sits at top level, there is no `payload` property. -/
def sendStatusUpdate (status : String) : StatusWireMsg :=
  { typeName := "status_update", status := some status, payload := none }

/-- The wire shape the spec prescribes (§6):
`{type: "status_update", payload: {status}}` — written from the spec's
words for the refinement comparison with `sendStatusUpdate`. -/
def specStatusUpdateMsg (status : String) : StatusWireMsg :=
  { typeName := "status_update", status := none,
    payload := some { status := status } }

/- ================================================================
   Part 4: batch job poller (BatchPractice.jsx)
   ================================================================ -/

/-- The `status` React state of BatchPractice.jsx (line 8) restricted to
the values the analysis flow sets. -/
inductive BatchStatus : Type
  | idle | uploading | polling | fetchingResults | success | error
deriving DecidableEq, Repr

/-- Poller state: the component status, whether the interval of line 49 is
live (`pollIntervalRef` holds an uncleared interval), and the cumulative
counts of status queries (line 58) and result fetches (line 75) issued. -/
structure PollerState : Type where
  status : BatchStatus
  timerActive : Bool
  statusQueries : Nat
  resultFetches : Nat
deriving DecidableEq, Repr

/-- Component state before any analysis: `useState('idle')`, no interval,
no requests issued. -/
def initialPoller : PollerState :=
  { status := .idle, timerActive := false, statusQueries := 0, resultFetches := 0 }

/-- `fetchResults` (BatchPractice.jsx lines 73-81): one GET of the results
endpoint; on success `setStatus('success')`, on failure
`setStatus('error')`. -/
def fetchResults (fetchOk : Bool) (s : PollerState) : PollerState :=
  { s with resultFetches := s.resultFetches + 1,
           status := if fetchOk then .success else .error }

/-- `startAnalysis` (BatchPractice.jsx lines 38-54): POST the audio; on
success `setStatus('polling')` and start the 30 s interval; on failure
`setStatus('error')` in the catch — no interval is ever started and the
start is not retried. -/
def startAnalysis (startOk : Bool) (s : PollerState) : PollerState :=
  if startOk then { s with status := .polling, timerActive := true }
  else { s with status := .error }

/-- One interval tick running `pollStatus` (BatchPractice.jsx lines 56-71).
`reply` is the status endpoint's answer: `.ok str` carries
`response.data.status`, `.error ()` is a transport failure (the catch
branch). A tick fires only while the interval is uncleared. The code
recognizes exactly the strings `'Succeeded'` (clear interval, fetch the
result once) and `'Failed'` (clear interval, error); any other reply
leaves the poller polling. -/
def pollTick (reply : Except Unit String) (fetchOk : Bool) (s : PollerState) :
    PollerState :=
  if s.timerActive = false then s
  else
    let q := { s with statusQueries := s.statusQueries + 1 }
    match reply with
    | .error _ => { q with timerActive := false, status := .error }
    | .ok str =>
        if str = "Succeeded" then
          fetchResults fetchOk { q with timerActive := false, status := .fetchingResults }
        else if str = "Failed" then
          { q with timerActive := false, status := .error }
        else q

/-- A whole run: `startAnalysis` followed by one `pollTick` per elapsed
30 s interval, the service's replies given in order. -/
def runPoller (startOk : Bool) (replies : List (Except Unit String))
    (fetchOk : Bool) : PollerState :=
  replies.foldl (fun s r => pollTick r fetchOk s) (startAnalysis startOk initialPoller)

/-- The `useEffect` cleanup of BatchPractice.jsx lines 16-18:
`clearInterval(pollIntervalRef.current)` on component teardown. -/
def teardownPoller (s : PollerState) : PollerState :=
  { s with timerActive := false }

/- ================================================================
   Helper lemmas
   ================================================================ -/

/-- A tick with the interval cleared does nothing. -/
theorem pollTick_inactive (r : Except Unit String) (fetchOk : Bool)
    (s : PollerState) (h : s.timerActive = false) :
    pollTick r fetchOk s = s := by
  simp [pollTick, h]

/-- Once the interval is cleared, any sequence of further ticks does
nothing: the timer is never restarted. -/
theorem foldl_pollTick_inactive (replies : List (Except Unit String))
    (fetchOk : Bool) (s : PollerState) (h : s.timerActive = false) :
    replies.foldl (fun t r => pollTick r fetchOk t) s = s := by
  induction replies with
  | nil => rfl
  | cons r rs ih =>
      simp only [List.foldl_cons, pollTick_inactive r fetchOk s h]
      exact ih

/-- `stepConn` never re-attaches a detached close handler, and with the
handler detached it never schedules a reconnect. -/
theorem stepConn_detached (s : ConnState) (e : WsEvent)
    (h : s.closeHandlerAttached = false) :
    (stepConn s e).1.closeHandlerAttached = false ∧ (stepConn s e).2 = none := by
  cases e with
  | onopen => exact ⟨h, rfl⟩
  | onclose code => simp [stepConn, h]
  | teardown => exact ⟨rfl, rfl⟩

/-- With the handler detached, no event of any subsequent trace schedules
a reconnect delay. -/
theorem connDelays_detached (es : List WsEvent) (s : ConnState)
    (h : s.closeHandlerAttached = false) :
    connDelays s es = List.replicate es.length none := by
  induction es generalizing s with
  | nil => rfl
  | cons e es ih =>
      obtain ⟨h1, h2⟩ := stepConn_detached s e h
      simp [connDelays, h2, ih (stepConn s e).1 h1, List.replicate_succ]

/-- Along a trace of unclean closes from an attached state with counter
`a`, the `i`-th close schedules exactly `backoffDelay (a + i)`. -/
theorem connDelays_uncleanCloses (codes : List Nat) (s : ConnState)
    (hAtt : s.closeHandlerAttached = true)
    (hCodes : ∀ c ∈ codes, c ≠ 1000) :
    connDelays s (codes.map WsEvent.onclose)
      = (List.range codes.length).map
          (fun i => some (backoffDelay (s.reconnectAttempts + i))) := by
  induction codes generalizing s with
  | nil => rfl
  | cons c cs ih =>
      have hc : c ≠ 1000 := hCodes c (List.mem_cons_self c cs)
      have hcs : ∀ x ∈ cs, x ≠ 1000 := fun x hx => hCodes x (List.mem_cons_of_mem c hx)
      have hstep : stepConn s (WsEvent.onclose c)
          = ({ s with reconnectAttempts := s.reconnectAttempts + 1 },
              some (backoffDelay s.reconnectAttempts)) := by
        simp [stepConn, hAtt, hc]
      simp only [List.map_cons, connDelays, hstep]
      rw [ih { s with reconnectAttempts := s.reconnectAttempts + 1 } hAtt hcs]
      simp only [List.length_cons, List.range_succ_eq_map, List.map_cons, List.map_map]
      congr 1
      apply List.map_congr_left
      intro i _
      have h1i : s.reconnectAttempts + 1 + i = s.reconnectAttempts + Nat.succ i := by
        omega
      simp [h1i]

/- ================================================================
   Claim theorems
   ================================================================ -/

/-- C1: for every trace that starts with a successful open and is followed
by uncleanly-closed connection cycles, the delay scheduled before the Nth
automatic reconnect attempt equals `min(1000 * 2^(N-1), 30000)` ms (the
counter is incremented once per failed cycle), and the successful open
resets the attempt counter to 0. -/
theorem backoff_delay_schedule (s : ConnState) (codes : List Nat) (N : Nat)
    (hAtt : s.closeHandlerAttached = true)
    (hCodes : ∀ c ∈ codes, c ≠ 1000)
    (hN : 1 ≤ N) (hLen : N ≤ codes.length) :
    (stepConn s .onopen).1.reconnectAttempts = 0
    ∧ (connDelays (stepConn s .onopen).1 (codes.map WsEvent.onclose)).get? (N - 1)
        = some (some (min (1000 * 2 ^ (N - 1)) 30000)) := by
  refine ⟨rfl, ?_⟩
  have hAtt' : (stepConn s .onopen).1.closeHandlerAttached = true := hAtt
  rw [connDelays_uncleanCloses codes _ hAtt' hCodes]
  have h0 : (stepConn s .onopen).1.reconnectAttempts = 0 := rfl
  rw [h0]
  have hlt : N - 1 < codes.length := by omega
  rw [List.get?_eq_getElem?, List.getElem?_map, List.getElem?_range hlt]
  simp [backoffDelay]

/-- Witness for C1: from a fresh connection, six unclean closes (code 1006)
after a successful open; the delay before the 6th reconnect attempt is
`min(1000 * 2^5, 30000) = 30000` ms, and the open reset the counter. -/
theorem backoff_delay_schedule_witness :
    initConn.closeHandlerAttached = true
    ∧ (∀ c ∈ [1006, 1006, 1006, 1006, 1006, 1006], c ≠ 1000)
    ∧ 1 ≤ 6 ∧ 6 ≤ [1006, 1006, 1006, 1006, 1006, 1006].length
    ∧ ((stepConn initConn .onopen).1.reconnectAttempts = 0
       ∧ (connDelays (stepConn initConn .onopen).1
            ([1006, 1006, 1006, 1006, 1006, 1006].map WsEvent.onclose)).get? (6 - 1)
          = some (some (min (1000 * 2 ^ (6 - 1)) 30000))) :=
  ⟨rfl, by decide, by decide, by decide,
   backoff_delay_schedule initConn [1006, 1006, 1006, 1006, 1006, 1006] 6 rfl
     (by decide) (by decide) (by decide)⟩

/-- C2: a clean close (code 1000) schedules no reconnect and leaves the
state untouched, and after manual teardown (which detaches the close
handler before closing, part_010 lines 79-85) no event of any later
trace ever schedules a reconnect delay. -/
theorem deliberate_close_no_reconnect (s : ConnState) (es : List WsEvent) :
    (stepConn s (.onclose 1000)).2 = none
    ∧ (stepConn s (.onclose 1000)).1 = s
    ∧ connDelays (stepConn s .teardown).1 es = List.replicate es.length none := by
  refine ⟨?_, ?_, ?_⟩
  · simp [stepConn]
  · simp [stepConn]
  · exact connDelays_detached es (stepConn s .teardown).1 rfl

/-- C4: a `student_status_update` for student S with status v sets S's
snapshot entry to exactly v whatever was there before, a second update
overwrites it again (last-write-wins, no merge), and a student with no
processed update renders with the default status `waiting`. -/
theorem status_last_write_wins (m : String → Option String) (S v v' : String)
    (hS : m S = none) :
    updateStatus m S v S = some v
    ∧ updateStatus (updateStatus m S v) S v' S = some v'
    ∧ renderedStatus m S = "waiting" := by
  refine ⟨?_, ?_, ?_⟩ <;> simp [updateStatus, renderedStatus, jsOrDefault, hS]

/-- Witness for C4: the empty snapshot, student "s1", statuses "recording"
then "completed". -/
theorem status_last_write_wins_witness :
    (fun _ => (none : Option String)) "s1" = none
    ∧ (updateStatus (fun _ => none) "s1" "recording" "s1" = some "recording"
       ∧ updateStatus (updateStatus (fun _ => none) "s1" "recording") "s1"
           "completed" "s1" = some "completed"
       ∧ renderedStatus (fun _ => none) "s1" = "waiting") :=
  ⟨rfl, status_last_write_wins (fun _ => none) "s1" "recording" "completed" rfl⟩

/-- C5 (code bug): part_010 line 42 runs `JSON.parse(event.data)` with no
try/catch, so a malformed inbound frame makes `ws.onmessage` raise an
uncaught error instead of logging and dropping the message. -/
theorem malformed_message_throws :
    onmessageRaw { assignedTask := none, studentStatuses := fun _ => none } none
      = .error .parseError := rfl

/-- C6 counterexample: the claim places the status inside a `payload`
field, but `sendStatusUpdate "recording"` carries it as a top-level
`status` property and has no `payload` field at all. -/
theorem status_update_shape_counterexample :
    sendStatusUpdate "recording" ≠ specStatusUpdateMsg "recording"
    ∧ (sendStatusUpdate "recording").payload = none
    ∧ (sendStatusUpdate "recording").status = some "recording" := by
  refine ⟨by decide, rfl, rfl⟩

/-- C6 (amended): every outbound status update is the record
`{type: "status_update", status}` — type discriminator `status_update`
and the status value carried as a top-level field, with no payload
wrapper. -/
theorem status_update_shape (status : String) :
    (sendStatusUpdate status).typeName = "status_update"
    ∧ (sendStatusUpdate status).status = some status
    ∧ (sendStatusUpdate status).payload = none :=
  ⟨rfl, rfl, rfl⟩

/-- C10: frame effect of the message router — `new_topic` replaces only
the held assignment, a `student_status_update` for student `sid` changes
no other student's entry and not the assignment, and `ping` answers
`pong` without mutating any state. -/
theorem message_frame_effect (s : ClientState) (p : TaskPayload)
    (sid st x : String) (hx : x ≠ sid) :
    (handleParsed s (.newTopic p)).1.studentStatuses = s.studentStatuses
    ∧ (handleParsed s (.newTopic p)).1.assignedTask = some p
    ∧ (handleParsed s (.studentStatusUpdate sid st)).1.assignedTask = s.assignedTask
    ∧ (handleParsed s (.studentStatusUpdate sid st)).1.studentStatuses x
        = s.studentStatuses x
    ∧ (handleParsed s .ping).1 = s
    ∧ (handleParsed s .ping).2 = [.pong] := by
  refine ⟨rfl, rfl, rfl, ?_, rfl, rfl⟩
  simp [handleParsed, updateStatus, hx]

/-- C3: a poller whose start succeeds and whose status service answers a
still-running reply on the first 2 polls and `Succeeded` on the 3rd
issues exactly 3 status queries and exactly 1 result fetch; the interval
is cleared at the succeeded poll, so however many further interval
periods elapse, no further status query ever occurs. -/
theorem poller_three_polls (r1 r2 : String) (extra : List (Except Unit String))
    (fetchOk : Bool)
    (h1s : r1 ≠ "Succeeded") (h1f : r1 ≠ "Failed")
    (h2s : r2 ≠ "Succeeded") (h2f : r2 ≠ "Failed") :
    (runPoller true ([.ok r1, .ok r2, .ok "Succeeded"] ++ extra) fetchOk).statusQueries = 3
    ∧ (runPoller true ([.ok r1, .ok r2, .ok "Succeeded"] ++ extra) fetchOk).resultFetches = 1
    ∧ (runPoller true ([.ok r1, .ok r2, .ok "Succeeded"] ++ extra) fetchOk).timerActive
        = false := by
  have step0 : startAnalysis true initialPoller
      = { status := .polling, timerActive := true,
          statusQueries := 0, resultFetches := 0 } := rfl
  have step1 : pollTick (.ok r1) fetchOk
      { status := .polling, timerActive := true, statusQueries := 0, resultFetches := 0 }
      = { status := .polling, timerActive := true,
          statusQueries := 1, resultFetches := 0 } := by
    simp [pollTick, h1s, h1f]
  have step2 : pollTick (.ok r2) fetchOk
      { status := .polling, timerActive := true, statusQueries := 1, resultFetches := 0 }
      = { status := .polling, timerActive := true,
          statusQueries := 2, resultFetches := 0 } := by
    simp [pollTick, h2s, h2f]
  have step3 : pollTick (.ok "Succeeded") fetchOk
      { status := .polling, timerActive := true, statusQueries := 2, resultFetches := 0 }
      = { status := if fetchOk then .success else .error, timerActive := false,
          statusQueries := 3, resultFetches := 1 } := by
    simp [pollTick, fetchResults]
  have hrun : runPoller true ([.ok r1, .ok r2, .ok "Succeeded"] ++ extra) fetchOk
      = { status := if fetchOk then .success else .error, timerActive := false,
          statusQueries := 3, resultFetches := 1 } := by
    simp only [runPoller, List.cons_append, List.nil_append, List.foldl_cons]
    rw [step0, step1, step2, step3]
    exact foldl_pollTick_inactive extra fetchOk _ rfl
  exact ⟨by rw [hrun], by rw [hrun], by rw [hrun]⟩

/-- Witness for C3: the service answers `Running` twice then `Succeeded`,
one extra interval period elapses afterwards, and the result fetch
succeeds. -/
theorem poller_three_polls_witness :
    ("Running" ≠ "Succeeded" ∧ "Running" ≠ "Failed")
    ∧ ((runPoller true
          ([.ok "Running", .ok "Running", .ok "Succeeded"] ++ [.ok "Running"])
          true).statusQueries = 3
       ∧ (runPoller true
            ([.ok "Running", .ok "Running", .ok "Succeeded"] ++ [.ok "Running"])
            true).resultFetches = 1
       ∧ (runPoller true
            ([.ok "Running", .ok "Running", .ok "Succeeded"] ++ [.ok "Running"])
            true).timerActive = false) :=
  ⟨⟨by decide, by decide⟩,
   poller_three_polls "Running" "Running" [.ok "Running"] true
     (by decide) (by decide) (by decide) (by decide)⟩

/-- C7: with the interval live, one poll is interpreted as: a `Succeeded`
reply clears the interval and triggers the single result fetch; a
`Failed` reply clears the interval, sets the terminal error status and
fetches nothing; any still-running reply leaves the whole state unchanged
except for counting the query — in particular the poller stays in its
polling status with the interval live. -/
theorem pollTick_interpretation (s : PollerState) (fetchOk : Bool) (str : String)
    (hTimer : s.timerActive = true)
    (hs : str ≠ "Succeeded") (hf : str ≠ "Failed") :
    ((pollTick (.ok "Succeeded") fetchOk s).timerActive = false
      ∧ (pollTick (.ok "Succeeded") fetchOk s).resultFetches = s.resultFetches + 1)
    ∧ ((pollTick (.ok "Failed") fetchOk s).timerActive = false
      ∧ (pollTick (.ok "Failed") fetchOk s).status = .error
      ∧ (pollTick (.ok "Failed") fetchOk s).resultFetches = s.resultFetches)
    ∧ pollTick (.ok str) fetchOk s
        = { s with statusQueries := s.statusQueries + 1 } := by
  refine ⟨⟨?_, ?_⟩, ⟨?_, ?_, ?_⟩, ?_⟩ <;>
    simp [pollTick, fetchResults, hTimer, hs, hf]

/-- Witness for C7: a live poller that has issued two queries, a
still-running reply string `Running`. -/
theorem pollTick_interpretation_witness :
    ((⟨.polling, true, 2, 0⟩ : PollerState).timerActive = true
      ∧ "Running" ≠ "Succeeded" ∧ "Running" ≠ "Failed")
    ∧ (((pollTick (.ok "Succeeded") true ⟨.polling, true, 2, 0⟩).timerActive = false
        ∧ (pollTick (.ok "Succeeded") true ⟨.polling, true, 2, 0⟩).resultFetches
            = (⟨.polling, true, 2, 0⟩ : PollerState).resultFetches + 1)
       ∧ ((pollTick (.ok "Failed") true ⟨.polling, true, 2, 0⟩).timerActive = false
        ∧ (pollTick (.ok "Failed") true ⟨.polling, true, 2, 0⟩).status = .error
        ∧ (pollTick (.ok "Failed") true ⟨.polling, true, 2, 0⟩).resultFetches
            = (⟨.polling, true, 2, 0⟩ : PollerState).resultFetches)
       ∧ pollTick (.ok "Running") true ⟨.polling, true, 2, 0⟩
          = { (⟨.polling, true, 2, 0⟩ : PollerState) with
              statusQueries := (⟨.polling, true, 2, 0⟩ : PollerState).statusQueries + 1 }) :=
  ⟨⟨rfl, by decide, by decide⟩,
   pollTick_interpretation ⟨.polling, true, 2, 0⟩ true "Running" rfl
     (by decide) (by decide)⟩

/-- C8: a poller whose start call fails goes straight to the terminal
error status with the interval never started; whatever interval periods
elapse afterwards, not a single status query or result fetch is ever
issued, and the start is not retried. -/
theorem start_failure_terminal (replies : List (Except Unit String))
    (fetchOk : Bool) :
    runPoller false replies fetchOk
      = { status := .error, timerActive := false,
          statusQueries := 0, resultFetches := 0 } := by
  have h0 : startAnalysis false initialPoller
      = { status := .error, timerActive := false,
          statusQueries := 0, resultFetches := 0 } := rfl
  simp only [runPoller, h0]
  exact foldl_pollTick_inactive replies fetchOk _ rfl

/-- C9: component teardown clears the interval, and from the torn-down
state any sequence of further interval periods changes nothing — in
particular no further status query occurs. -/
theorem teardown_clears_timer (s : PollerState)
    (replies : List (Except Unit String)) (fetchOk : Bool) :
    (teardownPoller s).timerActive = false
    ∧ replies.foldl (fun t r => pollTick r fetchOk t) (teardownPoller s)
        = teardownPoller s :=
  ⟨rfl, foldl_pollTick_inactive replies fetchOk (teardownPoller s) rfl⟩

/-- Witness for C10: empty client state, the pronunciation assignment of
the spec's example, an update for student "s1" observed at student "s2". -/
theorem message_frame_effect_witness :
    ("s2" : String) ≠ "s1"
    ∧ ((handleParsed ⟨none, fun _ => none⟩
          (.newTopic ⟨"pronunciation", "The sky is blue."⟩)).1.studentStatuses
        = (⟨none, fun _ => none⟩ : ClientState).studentStatuses
       ∧ (handleParsed ⟨none, fun _ => none⟩
            (.newTopic ⟨"pronunciation", "The sky is blue."⟩)).1.assignedTask
          = some ⟨"pronunciation", "The sky is blue."⟩
       ∧ (handleParsed ⟨none, fun _ => none⟩
            (.studentStatusUpdate "s1" "recording")).1.assignedTask
          = (⟨none, fun _ => none⟩ : ClientState).assignedTask
       ∧ (handleParsed ⟨none, fun _ => none⟩
            (.studentStatusUpdate "s1" "recording")).1.studentStatuses "s2"
          = (⟨none, fun _ => none⟩ : ClientState).studentStatuses "s2"
       ∧ (handleParsed ⟨none, fun _ => none⟩ .ping).1
          = (⟨none, fun _ => none⟩ : ClientState)
       ∧ (handleParsed ⟨none, fun _ => none⟩ .ping).2 = [.pong]) :=
  ⟨by decide,
   message_frame_effect ⟨none, fun _ => none⟩ ⟨"pronunciation", "The sky is blue."⟩
     "s1" "recording" "s2" (by decide)⟩
